import Mathlib

/-!
# Verification of the D6F-PH differential pressure sensor driver

Shallow embedding of `src/d6f_ph.py` (class `D6F_PH`), an I2C driver for the
OMRON D6F-PH differential pressure sensor.

Modelling conventions:
- Python integers are `Nat`/`Int`; bytes are `Nat` values (`< 256` stated as a
  hypothesis where a result depends on it).
- Python `float` arithmetic is modelled exactly over `ℚ`; every quantity the
  driver computes is a ratio of integers, which `ℚ` represents exactly.
- The I2C bus is an external collaborator: a `Bus` value records the byte
  blocks the two `readfrom_mem_into` calls deposit into the driver's buffer,
  and each read operation additionally returns the list of bus transactions
  (`BusOp`) it performed, in order, including the 33 ms sleep.
- Fallible Python code is modelled with `Option` (the driver's own
  `return None` paths) and `Except PyError` (uncaught Python exceptions):
  `PyError.configError` is the explicit `raise Exception('Error: Incorrect
  pressure range...')`, `PyError.unboundLocalError` is the `UnboundLocalError`
  raised by `getattr(self, func)` when the local `func` was never assigned in
  `_get_pres_func`, and `PyError.typeError` is the `TypeError` raised by tuple
  unpacking (`pa, _ = self.read()`) when `read` returned `None`.
-/

namespace D6F_PH

/-! ## CRC-8 (`crc8`, lines 81-93 of the source) -/

/-- One inner-loop iteration of `crc8`:
`crc = (crc << 1) ^ poly if crc & 0x80 else crc << 1`. -/
def crc8Step (poly : Nat) (crc : Nat) : Nat :=
  if crc &&& 0x80 ≠ 0 then (crc <<< 1) ^^^ poly else crc <<< 1

/-- The source's `crc8(self, byte_array, poly=0x131, init=0x00)`:
for each byte, XOR it into `crc`, run 8 inner iterations, then `crc &= 0xff`;
finally return `crc ^ 0x00`. -/
def crc8 (byte_array : List Nat) (poly : Nat) (crcInit : Nat) : Nat :=
  (byte_array.foldl
    (fun crc byte => ((crc8Step poly)^[8] (crc ^^^ byte)) &&& 0xff)
    crcInit) ^^^ 0x00

/-- Modelled from the spec's §4.1 wording of the checksum algorithm, inner
loop: "for 8 iterations: if the register's top bit is set, shift left one bit
and XOR with the polynomial byte, else shift left one bit". -/
def crc8DescRounds (poly : Nat) : Nat → Nat → Nat
  | 0, reg => reg
  | n + 1, reg =>
      crc8DescRounds poly n
        (if reg &&& 0x80 ≠ 0 then (reg <<< 1) ^^^ poly else reg <<< 1)

/-- Modelled from the spec's §4.1 wording of the checksum algorithm: "For each
input byte: XOR into the running 8-bit register, then [8 rounds]; mask to
8 bits after each byte. Returns the final 8-bit register value." -/
def crc8Desc (poly crcInit : Nat) : List Nat → Nat
  | [] => crcInit
  | b :: bs => crc8Desc poly ((crc8DescRounds poly 8 (crcInit ^^^ b)) &&& 0xff) bs

/-- Modelled from the spec: the standard CRC-8/Maxim (Dallas/Maxim, DOW-CRC)
algorithm, the independent reference the spec claims `crc8` matches.
Parameters: polynomial 0x31 reflected to 0x8C, init 0x00, refin/refout true,
xorout 0x00 — i.e. the LSB-first form: for each byte XOR it in, then for each
of 8 bits shift right and XOR 0x8C when the low bit was set. -/
def crc8Maxim (byte_array : List Nat) : Nat :=
  byte_array.foldl
    (fun crc byte =>
      (fun c => if c &&& 1 ≠ 0 then (c >>> 1) ^^^ 0x8C else c >>> 1)^[8]
        (crc ^^^ byte))
    0x00

/-! ## Pressure / temperature transfer functions (lines 27-36) -/

/-- Source `_PRESSURE_MODE_P`: `(output_decimal - 1024) * self._pres_range / 60000`. -/
def _PRESSURE_MODE_P (pres_range : ℚ) (output_decimal : ℚ) : ℚ :=
  (output_decimal - 1024) * pres_range / 60000

/-- Source `_PRESSURE_MODE_PN`:
`(output_decimal - 1024) * self._pres_range / 60000 - self._pres_range / 2`. -/
def _PRESSURE_MODE_PN (pres_range : ℚ) (output_decimal : ℚ) : ℚ :=
  (output_decimal - 1024) * pres_range / 60000 - pres_range / 2

/-- Source `_temp_celsius`: `(output_decimal - 10214) * 100 / 3739`. -/
def _temp_celsius (output_decimal : ℚ) : ℚ :=
  (output_decimal - 10214) * 100 / 3739

/-- The two transfer functions `_get_pres_func` can select between
(`'_PRESSURE_MODE_P'` / `'_PRESSURE_MODE_PN'` name strings in the source). -/
inductive PresFunc
  | modeP
  | modePN
deriving DecidableEq

/-- Dispatch of the selected transfer function, as `self._pres_func(raw_pres)`
does at read time. -/
def presFuncApply (f : PresFunc) (pres_range : ℚ) (output_decimal : ℚ) : ℚ :=
  match f with
  | .modeP => _PRESSURE_MODE_P pres_range output_decimal
  | .modePN => _PRESSURE_MODE_PN pres_range output_decimal

/-! ## Construction (`__init__`, `_get_pres_func`, `_get_pres_range`, lines 38-79) -/

/-- Python exceptions that can escape the modelled code paths. -/
inductive PyError
  | configError
  | unboundLocalError
  | typeError
deriving DecidableEq

/-- The `pressure_range` argument to `__init__`: a model-name string, a Python
`int`, or some other (non-`int`, non-`str`) value such as a `float` — only the
`isinstance` outcome of such a value matters, never its content. -/
inductive PresRangeArg
  | str (s : String)
  | int (n : Int)
  | nonIntNonStr
deriving DecidableEq

/-- The possible values of `self._pres_range` right after `__init__` assigns
it: an `int`, Python `None` (an unrecognized model string fell through
`_get_pres_range`, which then returns `None` implicitly), or a non-`int`
value passed through unchanged. -/
inductive PyRange
  | pyInt (n : Int)
  | pyNone
  | pyNonInt
deriving DecidableEq

/-- The `_PRESSURE_RANGE` class dictionary (lines 20-24). -/
def _PRESSURE_RANGE (s : String) : Option Int :=
  if s = "0505" then some 100
  else if s = "0025" then some 250
  else if s = "5050" then some 1000
  else none

/-- Source `_get_pres_range`, on the string branch `__init__` actually reaches:
if the string is in `_PRESSURE_RANGE` its value is returned, otherwise the
function falls off the end and returns Python `None` (the `raise` in its
`else` arm is only reachable for non-string arguments, which `__init__`
never passes). -/
def _get_pres_range (pressure_range : String) : Option Int :=
  _PRESSURE_RANGE pressure_range

/-- Source `_get_pres_func` (lines 64-72): an `int` equal to 250 selects
`_PRESSURE_MODE_P`; 100 or 1000 selects `_PRESSURE_MODE_PN`; any other `int`
leaves the local `func` unassigned so `getattr(self, func)` raises
`UnboundLocalError`; a non-`int` (including `None`) takes the `else` arm and
raises the explicit `Exception('Error: Incorrect pressure range.')`. -/
def _get_pres_func (pres_range : PyRange) : Except PyError PresFunc :=
  match pres_range with
  | .pyInt n =>
      if n = 250 then .ok .modeP
      else if n = 100 ∨ n = 1000 then .ok .modePN
      else .error .unboundLocalError
  | .pyNone => .error .configError
  | .pyNonInt => .error .configError

/-- Driver state fixed by `__init__` (bus handle omitted: the bus is passed
explicitly to each read operation as a `Bus` value). -/
structure Driver where
  addr : Nat
  presRange : Int
  presFunc : PresFunc
  enCrc : Bool
  offset : Int
  bufLen : Nat
deriving DecidableEq

/-- Source `__init__` (lines 38-62): resolve `pressure_range` (strings through
`_get_pres_range`, everything else taken as-is), select the transfer function
through `_get_pres_func`, store the offset, and size the measurement buffer
(3 bytes with CRC enabled, else 2).  The two one-time device-initialization
bus writes (`b'\x0b\x00'` and, with CRC, `b'\x00\xd0\x49\x18\x02'`) touch no
driver state and are not recorded here.  The `.pyNone`/`.pyNonInt` fallback
value 0 for `presRange` is unreachable: `_get_pres_func` errors on those. -/
def init (address : Nat) (pressure_range : PresRangeArg) (en_crc : Bool)
    (offset : Int) : Except PyError Driver :=
  let pr : PyRange :=
    match pressure_range with
    | .str s =>
        match _get_pres_range s with
        | some v => .pyInt v
        | none => .pyNone
    | .int n => .pyInt n
    | .nonIntNonStr => .pyNonInt
  match _get_pres_func pr with
  | .error e => .error e
  | .ok f =>
      .ok { addr := address
            presRange := match pr with | .pyInt n => n | _ => 0
            presFunc := f
            enCrc := en_crc
            offset := offset
            bufLen := if en_crc then 3 else 2 }

/-! ## Bus model and the read operations (lines 95-168) -/

/-- One bus-level action of a read operation, in the order performed. -/
inductive BusOp
  | write (addr : Nat) (data : List Nat)
  | sleep_ms (ms : Nat)
  | readMem (addr : Nat) (reg : Nat) (len : Nat)
deriving DecidableEq

/-- The byte blocks the sensor returns for the two `readfrom_mem_into` calls
of one `read_raw`: first the pressure block, then the temperature block.
Each models the content of `self._buffer` right after the corresponding
bus read (so its length is the buffer length, 2 or 3). -/
structure Bus where
  presBlock : List Nat
  tempBlock : List Nat
deriving DecidableEq

/-- Python `int.from_bytes(bs, 'big')`. -/
def int_from_bytes_be (bs : List Nat) : Nat :=
  bs.foldl (fun acc b => acc * 256 + b) 0

/-- Source `read_raw` (lines 95-119).  Returns the ordered list of bus
transactions performed and `some (raw_pres, raw_temp)` on success, `none` on
a checksum mismatch in either stage (the source's `return None`).
`raw_pres` is the big-endian decode of the first 2 buffer bytes minus
`self._offset` (an `Int`: it may go negative); `raw_temp` is the plain
big-endian decode. -/
def read_raw (d : Driver) (bus : Bus) : List BusOp × Option (Int × Nat) :=
  let ops1 : List BusOp :=
    [.write d.addr [0x00, 0xd0, 0x40, 0x18, 0x06],
     .sleep_ms 33,
     .write d.addr [0x00, 0xd0, 0x51, 0x2c],
     .readMem d.addr 0x07 d.bufLen]
  if d.enCrc && (crc8 (bus.presBlock.take 2) 0x131 0x00 != bus.presBlock.getD 2 0) then
    (ops1, none)
  else
    let raw_pres : Int := (int_from_bytes_be (bus.presBlock.take 2) : Int) - d.offset
    let ops2 : List BusOp := ops1 ++
      [.write d.addr [0x00, 0xd0, 0x61, 0x2c],
       .readMem d.addr 0x07 d.bufLen]
    if d.enCrc && (crc8 (bus.tempBlock.take 2) 0x131 0x00 != bus.tempBlock.getD 2 0) then
      (ops2, none)
    else
      (ops2, some (raw_pres, int_from_bytes_be (bus.tempBlock.take 2)))

/-- Source `read` (lines 121-131): `None` propagates from `read_raw`
(`if not (raw_counts := self.read_raw()): return None`; a tuple of ints is
always truthy), otherwise apply `self._pres_func` and `_temp_celsius`. -/
def read (d : Driver) (bus : Bus) : List BusOp × Option (ℚ × ℚ) :=
  ((read_raw d bus).1,
   (read_raw d bus).2.map fun raw_counts =>
     (presFuncApply d.presFunc (d.presRange : ℚ) ((raw_counts.1 : ℚ)),
      _temp_celsius ((raw_counts.2 : ℚ))))

/-- Source `read_pa`: `pa, _ = self.read()` then `return pa`.  When `read`
returned `None`, the tuple unpacking raises `TypeError`. -/
def read_pa (d : Driver) (bus : Bus) : List BusOp × Except PyError ℚ :=
  ((read d bus).1,
   match (read d bus).2 with
   | none => .error .typeError
   | some pt => .ok pt.1)

/-- Source `read_psi`: `self.read_pa() / 6894.75729` (exact over ℚ). -/
def read_psi (d : Driver) (bus : Bus) : List BusOp × Except PyError ℚ :=
  ((read_pa d bus).1,
   match (read_pa d bus).2 with
   | .error e => .error e
   | .ok pa => .ok (pa / (6894.75729 : ℚ)))

/-- Source `read_hpa`: `self.read_pa() / 100`. -/
def read_hpa (d : Driver) (bus : Bus) : List BusOp × Except PyError ℚ :=
  ((read_pa d bus).1,
   match (read_pa d bus).2 with
   | .error e => .error e
   | .ok pa => .ok (pa / 100))

/-- Source `read_temp_c`: `_, temp = self.read()` then `return temp`; like
`read_pa`, unpacking `None` raises `TypeError`. -/
def read_temp_c (d : Driver) (bus : Bus) : List BusOp × Except PyError ℚ :=
  ((read d bus).1,
   match (read d bus).2 with
   | none => .error .typeError
   | some pt => .ok pt.2)

/-- Source `read_temp_f`: `self.read_temp_c() * 1.8 + 32` (exact over ℚ). -/
def read_temp_f (d : Driver) (bus : Bus) : List BusOp × Except PyError ℚ :=
  ((read_temp_c d bus).1,
   match (read_temp_c d bus).2 with
   | .error e => .error e
   | .ok tc => .ok (tc * (1.8 : ℚ) + 32))

/-- The complete bus-transaction sequence of one successful `read_raw`. -/
def full_sequence (addr : Nat) (len : Nat) : List BusOp :=
  [.write addr [0x00, 0xd0, 0x40, 0x18, 0x06],
   .sleep_ms 33,
   .write addr [0x00, 0xd0, 0x51, 0x2c],
   .readMem addr 0x07 len,
   .write addr [0x00, 0xd0, 0x61, 0x2c],
   .readMem addr 0x07 len]

/-! ## Helper lemmas -/

/-- The iterated inner step of `crc8` equals the spec-worded 8-round loop. -/
theorem crc8Step_iterate_eq (poly : Nat) : ∀ (n : Nat) (c : Nat),
    (crc8Step poly)^[n] c = crc8DescRounds poly n c
  | 0, c => rfl
  | n + 1, c => by
      rw [Function.iterate_succ_apply]
      exact crc8Step_iterate_eq poly n (crc8Step poly c)

/-- A nonempty fold of the per-byte `crc8` step ends in a value masked to
8 bits. -/
theorem foldl_crc_lt (poly : Nat) : ∀ (bs : List Nat) (c : Nat), bs ≠ [] →
    bs.foldl (fun crc byte => ((crc8Step poly)^[8] (crc ^^^ byte)) &&& 0xff) c < 256
  | [b], c, _ => by
      simp only [List.foldl_cons, List.foldl_nil]
      exact lt_of_le_of_lt Nat.and_le_right (by norm_num)
  | b :: b2 :: bs, c, _ => by
      rw [List.foldl_cons]
      exact foldl_crc_lt poly (b2 :: bs) _ (by simp)

/-- The `crc8` register stays below 256 once at least one byte was folded. -/
theorem crc8_lt_of_ne_nil (bs : List Nat) (poly crcInit : Nat) (h : bs ≠ []) :
    crc8 bs poly crcInit < 256 := by
  have := foldl_crc_lt poly bs crcInit h
  simpa [crc8] using this

/-- `crc8` agrees with the spec-worded recursion byte for byte. -/
theorem crc8_eq_crc8Desc (bs : List Nat) (poly crcInit : Nat) :
    crc8 bs poly crcInit = crc8Desc poly crcInit bs := by
  induction bs generalizing crcInit with
  | nil => simp [crc8, crc8Desc]
  | cons b bs ih =>
      have h1 : crc8 (b :: bs) poly crcInit
          = crc8 bs poly (((crc8Step poly)^[8] (crcInit ^^^ b)) &&& 0xff) := rfl
      rw [h1, ih, crc8Step_iterate_eq]
      rfl

/-! ## Claim theorems -/

/-- C7: `crc8` is pure and computes, for every byte sequence, polynomial and
initial value, exactly the algorithm the spec describes (per byte: XOR in,
8 rounds of shift-left-and-conditionally-XOR on the 0x80 bit, mask to 8 bits
after each byte; return the final register), and its result is in 0..255 for
every non-empty input. -/
theorem crc8_algorithm (byte_array : List Nat) (poly crcInit : Nat) :
    crc8 byte_array poly crcInit = crc8Desc poly crcInit byte_array
    ∧ (byte_array ≠ [] → crc8 byte_array poly crcInit < 256) :=
  ⟨crc8_eq_crc8Desc byte_array poly crcInit,
   fun h => crc8_lt_of_ne_nil byte_array poly crcInit h⟩

/-- Witness for C7 at the concrete input `[0x01]` with the default polynomial
and initial value. -/
theorem crc8_algorithm_witness :
    ([0x01] : List Nat) ≠ []
    ∧ crc8 [0x01] 0x131 0x00 = crc8Desc 0x131 0x00 [0x01]
    ∧ crc8 [0x01] 0x131 0x00 < 256 :=
  ⟨by decide, (crc8_algorithm [0x01] 0x131 0x00).1,
   (crc8_algorithm [0x01] 0x131 0x00).2 (by decide)⟩

/-- C2 counterexample: on the single-byte input `0x01` with the default
polynomial and initial value, `crc8` returns 0x31, whereas the standard
CRC-8/Maxim table value for `0x01` is 0x5E — so `crc8` does not compute
CRC-8/Maxim (the source's own docstring notwithstanding: the function is the
non-reflected, MSB-first CRC-8 variant, while CRC-8/Maxim is bit-reflected). -/
theorem crc8_not_maxim_counterexample :
    crc8 [0x01] 0x131 0x00 = 0x31
    ∧ crc8Maxim [0x01] = 0x5E
    ∧ crc8 [0x01] 0x131 0x00 ≠ crc8Maxim [0x01] := by
  refine ⟨by decide, by decide, by decide⟩

set_option maxRecDepth 4000 in
/-- C2 amended: with the default polynomial 0x131 and initial value 0x00,
`crc8` computes the non-reflected MSB-first CRC-8 with polynomial 0x31
(value 0x31 on input `[0x01]`), not CRC-8/Maxim (table value 0x5E at `0x01`);
on `[0x00, 0x00]` it is deterministic and returns 0x00, which happens to
coincide with the Maxim value.  (The reference `crc8Maxim` is validated here
against the standard check value: CRC-8/Maxim of the ASCII bytes of
"123456789" is 0xA1.) -/
theorem crc8_msb_first_values :
    crc8 [0x01] 0x131 0x00 = 0x31
    ∧ crc8 [0x00, 0x00] 0x131 0x00 = 0x00
    ∧ crc8Maxim [0x00, 0x00] = 0x00
    ∧ crc8Maxim [0x31, 0x32, 0x33, 0x34, 0x35, 0x36, 0x37, 0x38, 0x39] = 0xA1 := by
  refine ⟨by decide, by decide, by decide, by decide⟩

/-- C1 amended: with checksum enabled, a CRC mismatch on either the pressure
or the temperature sub-read makes `read_raw` and `read` return the absent
outcome (`None`), with no fabricated numeric reading; the convenience
conversions `read_pa`/`read_psi`/`read_hpa`/`read_temp_c`/`read_temp_f`,
however, do not report an absent outcome — they crash with a `TypeError`
(`pa, _ = self.read()` unpacking `None`), which the propagated
`PyError.typeError` models. -/
theorem checksum_mismatch_behavior (d : Driver) (bus : Bus)
    (h1 : d.enCrc = true)
    (h2 : crc8 (bus.presBlock.take 2) 0x131 0x00 ≠ bus.presBlock.getD 2 0
        ∨ crc8 (bus.tempBlock.take 2) 0x131 0x00 ≠ bus.tempBlock.getD 2 0) :
    (read_raw d bus).2 = none
    ∧ (read d bus).2 = none
    ∧ (read_pa d bus).2 = .error .typeError
    ∧ (read_psi d bus).2 = .error .typeError
    ∧ (read_hpa d bus).2 = .error .typeError
    ∧ (read_temp_c d bus).2 = .error .typeError
    ∧ (read_temp_f d bus).2 = .error .typeError := by
  have h2' : crc8 (bus.presBlock.take 2) 0x131 0x00 ≠ bus.presBlock[2]?.getD 0
      ∨ crc8 (bus.tempBlock.take 2) 0x131 0x00 ≠ bus.tempBlock[2]?.getD 0 := by
    simpa using h2
  have hrr : (read_raw d bus).2 = none := by
    by_cases hp : crc8 (bus.presBlock.take 2) 0x131 0x00 = bus.presBlock[2]?.getD 0
    · rcases h2' with hp' | ht
      · exact absurd hp hp'
      · simp [read_raw, h1, hp, ht, bne_iff_ne]
    · simp [read_raw, h1, hp, bne_iff_ne]
  refine ⟨hrr, ?_, ?_, ?_, ?_, ?_, ?_⟩ <;>
    simp [read, read_pa, read_psi, read_hpa, read_temp_c, read_temp_f, hrr]

/-- Witness for C1 (amended): a concrete CRC-enabled driver and a bus block
whose appended third byte (1) disagrees with the computed CRC of the first
two bytes (`crc8 [0, 0] = 0`). -/
theorem checksum_mismatch_behavior_witness :
    (⟨0x6c, 1000, .modePN, true, 0, 3⟩ : Driver).enCrc = true
    ∧ crc8 (([0, 0, 1] : List Nat).take 2) 0x131 0x00 ≠ ([0, 0, 1] : List Nat).getD 2 0
    ∧ (read_raw ⟨0x6c, 1000, .modePN, true, 0, 3⟩ ⟨[0, 0, 1], [0, 0, 0]⟩).2 = none
    ∧ (read_temp_f ⟨0x6c, 1000, .modePN, true, 0, 3⟩ ⟨[0, 0, 1], [0, 0, 0]⟩).2
        = .error .typeError := by
  have h := checksum_mismatch_behavior ⟨0x6c, 1000, .modePN, true, 0, 3⟩
    ⟨[0, 0, 1], [0, 0, 0]⟩ rfl (Or.inl (by decide))
  exact ⟨rfl, by decide, h.1, h.2.2.2.2.2.2⟩

/-- C1 counterexample: the claim says every checksum-enabled convenience read
reports an absent/empty outcome and never crashes on a CRC mismatch; but on
this mismatching bus block (`crc8 [0, 0] = 0 ≠ 1`) `read_pa` and `read_psi`
raise a `TypeError` (unpacking `None`) rather than reporting absence. -/
theorem convenience_crash_counterexample :
    init 0x6c (.int 1000) true 0 = .ok ⟨0x6c, 1000, .modePN, true, 0, 3⟩
    ∧ crc8 [0x00, 0x00] 0x131 0x00 ≠ 1
    ∧ (read_pa ⟨0x6c, 1000, .modePN, true, 0, 3⟩ ⟨[0, 0, 1], [0, 0, 0]⟩).2
        = .error .typeError
    ∧ (read_psi ⟨0x6c, 1000, .modePN, true, 0, 3⟩ ⟨[0, 0, 1], [0, 0, 0]⟩).2
        = .error .typeError := by
  refine ⟨rfl, by decide, rfl, rfl⟩

/-- C10: with checksum disabled, `read_raw` never takes a checksum-failure
branch and always returns a pair: the raw temperature is the big-endian
unsigned decode of the 2-byte buffer (hence at most 65535 when the buffer
holds 2 genuine bytes), and the raw pressure is that decode of the pressure
buffer minus the configured offset. -/
theorem crc_disabled_read_raw (d : Driver) (bus : Bus) (hc : d.enCrc = false)
    (hlen : bus.tempBlock.length = 2) (hbytes : ∀ b ∈ bus.tempBlock, b < 256) :
    (read_raw d bus).2
      = some ((int_from_bytes_be (bus.presBlock.take 2) : Int) - d.offset,
              int_from_bytes_be (bus.tempBlock.take 2))
    ∧ int_from_bytes_be (bus.tempBlock.take 2) ≤ 65535 := by
  constructor
  · simp [read_raw, hc]
  · obtain ⟨b0, b1, heq⟩ := List.length_eq_two.mp hlen
    have h0 := hbytes b0 (by rw [heq]; simp)
    have h1 := hbytes b1 (by rw [heq]; simp)
    rw [heq]
    simp only [List.take, int_from_bytes_be, List.foldl_cons, List.foldl_nil]
    omega

/-- Witness for C10: a CRC-disabled driver with offset 5 on concrete bus
blocks; the decode of `[0x04, 0x00]` is 1024 so the raw pressure is 1019, and
the decode of `[0x27, 0xe6]` is 10214 ≤ 65535. -/
theorem crc_disabled_read_raw_witness :
    (read_raw ⟨0x6c, 1000, .modePN, false, 5, 2⟩ ⟨[0x04, 0x00], [0x27, 0xe6]⟩).2
      = some (1019, 10214)
    ∧ (10214 : Nat) ≤ 65535 := by
  have h := crc_disabled_read_raw ⟨0x6c, 1000, .modePN, false, 5, 2⟩
    ⟨[0x04, 0x00], [0x27, 0xe6]⟩ rfl (by decide) (by decide)
  refine ⟨?_, h.2⟩
  rw [h.1]
  decide

/-- C3 amended: construction fails, producing no driver, in exactly the
claimed cases, but not always with the driver's own configuration error: an
unrecognized model string or a non-`int` pressure-range value raises the
explicit `Exception('Error: Incorrect pressure range.')` (`configError`),
while an `int` outside {100, 250, 1000} (including every negative integer)
crashes with an `UnboundLocalError` because `_get_pres_func` leaves its local
`func` unassigned; each of 100, 250, 1000 and each of the model strings
'0505', '0025', '5050' constructs successfully. -/
theorem construction_validation (address : Nat) (en_crc : Bool) (off : Int) :
    (∀ s : String, _PRESSURE_RANGE s = none →
        init address (.str s) en_crc off = .error .configError)
    ∧ init address .nonIntNonStr en_crc off = .error .configError
    ∧ (∀ n : Int, ¬(n = 100 ∨ n = 250 ∨ n = 1000) →
        init address (.int n) en_crc off = .error .unboundLocalError)
    ∧ (∀ n : Int, n = 100 ∨ n = 250 ∨ n = 1000 →
        init address (.int n) en_crc off
          = .ok ⟨address, n, if n = 250 then .modeP else .modePN, en_crc, off,
                 if en_crc then 3 else 2⟩)
    ∧ init address (.str "0505") en_crc off
        = .ok ⟨address, 100, .modePN, en_crc, off, if en_crc then 3 else 2⟩
    ∧ init address (.str "0025") en_crc off
        = .ok ⟨address, 250, .modeP, en_crc, off, if en_crc then 3 else 2⟩
    ∧ init address (.str "5050") en_crc off
        = .ok ⟨address, 1000, .modePN, en_crc, off, if en_crc then 3 else 2⟩ := by
  refine ⟨?_, rfl, ?_, ?_, ?_, ?_, ?_⟩
  · intro s hs
    simp [init, _get_pres_range, hs, _get_pres_func]
  · intro n hn
    push_neg at hn
    obtain ⟨hn1, hn2, hn3⟩ := hn
    simp [init, _get_pres_func, hn1, hn2, hn3]
  · intro n hn
    rcases hn with rfl | rfl | rfl <;> norm_num [init, _get_pres_func]
  · rfl
  · rfl
  · rfl

/-- Witness for C3 (amended) at concrete arguments: an unknown model string,
an out-of-set integer, an in-set integer, and a known model string. -/
theorem construction_validation_witness :
    init 0x6c (.str "zzz") false 0 = .error .configError
    ∧ init 0x6c (.int 500) true 0 = .error .unboundLocalError
    ∧ init 0x6c (.int 250) false 0 = .ok ⟨0x6c, 250, .modeP, false, 0, 2⟩
    ∧ init 0x6c (.str "5050") true 7 = .ok ⟨0x6c, 1000, .modePN, true, 7, 3⟩ := by
  refine ⟨(construction_validation 0x6c false 0).1 "zzz" (by decide),
          (construction_validation 0x6c true 0).2.2.1 500 (by decide), ?_, ?_⟩
  · have h := (construction_validation 0x6c false 0).2.2.2.1 250 (by norm_num)
    simpa using h
  · have h := (construction_validation 0x6c true 7).2.2.2.2.2.2
    simpa using h

/-- C3 counterexample: the claim says any resolved full-scale value outside
{100, 250, 1000} fails with the `ConfigurationError`; constructing with the
non-negative integer 500 indeed fails, but with the `UnboundLocalError` crash
(`func` referenced before assignment in `_get_pres_func`), which is a
different error kind from the explicit configuration error. -/
theorem construction_counterexample :
    init 0x6c (.int 500) false 0 = .error .unboundLocalError
    ∧ PyError.unboundLocalError ≠ PyError.configError := by
  exact ⟨rfl, by decide⟩

/-- C4: on a successful read through a driver constructed (with zero offset)
for full-scale `fs` in {100, 250, 1000}, the calibrated temperature is
`(raw_temp - 10214) * 100 / 3739` and the calibrated pressure is
`(raw_pres - 1024) * fs / 60000` when `fs = 250`, else that minus `fs / 2`;
in particular the model-'5050' driver on raw pressure 1024 and raw
temperature 10214 reads exactly (-500 Pa, 0 °C). -/
theorem calibrated_read_formulas (fs : Int) (d : Driver) (en_crc : Bool)
    (bus : Bus) (rp : Int) (rt : Nat)
    (hfs : fs = 100 ∨ fs = 250 ∨ fs = 1000)
    (hd : init 0x6c (.int fs) en_crc 0 = .ok d)
    (hraw : (read_raw d bus).2 = some (rp, rt)) :
    (read d bus).2
      = some (if fs = 250 then ((rp : ℚ) - 1024) * (fs : ℚ) / 60000
              else ((rp : ℚ) - 1024) * (fs : ℚ) / 60000 - (fs : ℚ) / 2,
             ((rt : ℚ) - 10214) * 100 / 3739)
    ∧ init 0x6c (.str "5050") false 0 = .ok ⟨0x6c, 1000, .modePN, false, 0, 2⟩
    ∧ (read ⟨0x6c, 1000, .modePN, false, 0, 2⟩ ⟨[0x04, 0x00], [0x27, 0xe6]⟩).2
        = some (-500, 0) := by
  refine ⟨?_, rfl, ?_⟩
  case refine_2 =>
    norm_num [read, read_raw, int_from_bytes_be, List.foldl_cons, List.foldl_nil,
      presFuncApply, _PRESSURE_MODE_PN, _temp_celsius]
  rcases hfs with rfl | rfl | rfl <;>
    (norm_num [init, _get_pres_func] at hd
     subst hd
     simp only [read, hraw, Option.map_some']
     norm_num [presFuncApply, _PRESSURE_MODE_P, _PRESSURE_MODE_PN, _temp_celsius])

/-- Witness for C4: the '5050'-equivalent driver (full-scale 1000) with a bus
returning raw pressure 1024 (`[0x04, 0x00]`) and raw temperature 10214
(`[0x27, 0xe6]`) yields the calibrated reading (-500 Pa, 0 °C). -/
theorem calibrated_read_formulas_witness :
    (read ⟨0x6c, 1000, .modePN, false, 0, 2⟩ ⟨[0x04, 0x00], [0x27, 0xe6]⟩).2
      = some (-500, 0) := by
  have h := calibrated_read_formulas 1000 ⟨0x6c, 1000, .modePN, false, 0, 2⟩ false
    ⟨[0x04, 0x00], [0x27, 0xe6]⟩ 1024 10214 (by norm_num) rfl (by decide)
  rw [h.1]
  norm_num

/-- C5 amended: constructing with full-scale 250 selects the unidirectional
transfer function, whose result lies in [0, 250] for raw counts in the
datasheet's valid span [1024, 61024] (not the whole unsigned 16-bit range:
raw counts below 1024 give negative values and counts above 61024 exceed
250); constructing with 100 or 1000 selects the bidirectional function, which
is symmetric about 0 (point symmetry around the midpoint count 31024) and
spans exactly ±full-scale/2 over [1024, 61024]. -/
theorem pressure_range_behavior (fs : Int) (hfs : fs = 100 ∨ fs = 1000) :
    _get_pres_func (.pyInt 250) = .ok .modeP
    ∧ _get_pres_func (.pyInt fs) = .ok .modePN
    ∧ (∀ raw : ℚ, 1024 ≤ raw → raw ≤ 61024 →
        0 ≤ _PRESSURE_MODE_P 250 raw ∧ _PRESSURE_MODE_P 250 raw ≤ 250)
    ∧ (∀ dlt : ℚ, _PRESSURE_MODE_PN (fs : ℚ) (31024 + dlt)
        + _PRESSURE_MODE_PN (fs : ℚ) (31024 - dlt) = 0)
    ∧ _PRESSURE_MODE_PN (fs : ℚ) 1024 = -(fs : ℚ) / 2
    ∧ _PRESSURE_MODE_PN (fs : ℚ) 61024 = (fs : ℚ) / 2 := by
  refine ⟨rfl, ?_, ?_, ?_, ?_, ?_⟩
  · rcases hfs with rfl | rfl <;> rfl
  · intro raw hlo hhi
    unfold _PRESSURE_MODE_P
    constructor
    · have h1 : (0 : ℚ) ≤ raw - 1024 := by linarith
      exact div_nonneg (mul_nonneg h1 (by norm_num)) (by norm_num)
    · rw [div_le_iff₀ (by norm_num : (0 : ℚ) < 60000)]
      linarith
  · intro dlt
    unfold _PRESSURE_MODE_PN
    ring
  · unfold _PRESSURE_MODE_PN
    ring
  · unfold _PRESSURE_MODE_PN
    ring

/-- Witness for C5 (amended) at full-scale 100 and raw count 2048. -/
theorem pressure_range_behavior_witness :
    _get_pres_func (.pyInt 100) = .ok .modePN
    ∧ 0 ≤ _PRESSURE_MODE_P 250 2048
    ∧ _PRESSURE_MODE_P 250 2048 ≤ 250
    ∧ _PRESSURE_MODE_PN ((100 : Int) : ℚ) 1024 = -((100 : Int) : ℚ) / 2 := by
  have h := pressure_range_behavior 100 (Or.inl rfl)
  have hr := h.2.2.1 2048 (by norm_num) (by norm_num)
  exact ⟨h.2.1, hr.1, hr.2, h.2.2.2.2.1⟩

/-- C5 counterexample: a driver constructed with full-scale 250 (model
'0025'), on the in-range unsigned 16-bit raw count 0, yields pressure
-64/15 Pa, which is not in [0, 250] — the unidirectional result is only
confined to [0, 250] on the narrower raw span [1024, 61024]. -/
theorem pressure_range_counterexample :
    init 0x6c (.int 250) false 0 = .ok ⟨0x6c, 250, .modeP, false, 0, 2⟩
    ∧ (read ⟨0x6c, 250, .modeP, false, 0, 2⟩ ⟨[0x00, 0x00], [0x00, 0x00]⟩).2.map
        Prod.fst = some (-64 / 15 : ℚ)
    ∧ ¬(0 ≤ (-64 / 15 : ℚ)) := by
  refine ⟨rfl, ?_, by norm_num⟩
  norm_num [read, read_raw, int_from_bytes_be, List.foldl_cons, List.foldl_nil,
    presFuncApply, _PRESSURE_MODE_P]

/-- Helper: the transaction trace of `read_raw` is the full 6-operation
sequence unless the pressure-stage checksum rejects, in which case it is the
4-operation prefix (trigger, 33 ms delay, pressure select, pressure read). -/
theorem read_raw_fst (d : Driver) (bus : Bus) :
    (read_raw d bus).1
      = if d.enCrc && (crc8 (bus.presBlock.take 2) 0x131 0x00
            != bus.presBlock.getD 2 0)
        then (full_sequence d.addr d.bufLen).take 4
        else full_sequence d.addr d.bufLen := by
  simp only [read_raw]
  by_cases hc1 : (d.enCrc && (crc8 (bus.presBlock.take 2) 0x131 0x00
      != bus.presBlock.getD 2 0)) = true
  · rw [if_pos hc1, if_pos hc1]
    simp [full_sequence]
  · rw [if_neg hc1, if_neg hc1]
    by_cases hc2 : (d.enCrc && (crc8 (bus.tempBlock.take 2) 0x131 0x00
        != bus.tempBlock.getD 2 0)) = true
    · rw [if_pos hc2]
      simp [full_sequence]
    · rw [if_neg hc2]
      simp [full_sequence]

/-- C6 amended: the bus operations of `read_raw` are exactly the claimed
sequence — trigger write `0x00 0xD0 0x40 0x18 0x06`, 33 ms delay, write
`0x00 0xD0 0x51 0x2C` and read `bufLen` bytes at register 0x07, write
`0x00 0xD0 0x61 0x2C` and read the buffer again — with no other
transactions, whenever the checksum is disabled or the pressure-stage
checksum passes; when the pressure-stage checksum rejects, only the first
four operations are issued (the temperature select/read never happen); the
trigger and the 33 ms delay are executed on every raw read, never skipped. -/
theorem bus_sequence (d : Driver) (bus : Bus) :
    ((d.enCrc = false
        ∨ crc8 (bus.presBlock.take 2) 0x131 0x00 = bus.presBlock.getD 2 0) →
      (read_raw d bus).1 = full_sequence d.addr d.bufLen)
    ∧ ((d.enCrc = true
        ∧ crc8 (bus.presBlock.take 2) 0x131 0x00 ≠ bus.presBlock.getD 2 0) →
      (read_raw d bus).1 = (full_sequence d.addr d.bufLen).take 4)
    ∧ (read_raw d bus).1.take 4 = (full_sequence d.addr d.bufLen).take 4
    ∧ BusOp.sleep_ms 33 ∈ (read_raw d bus).1 := by
  rw [read_raw_fst]
  by_cases hc1 : (d.enCrc && (crc8 (bus.presBlock.take 2) 0x131 0x00
      != bus.presBlock.getD 2 0)) = true
  · have hc1' : d.enCrc = true
        ∧ crc8 (bus.presBlock.take 2) 0x131 0x00 ≠ bus.presBlock.getD 2 0 := by
      simpa [bne_iff_ne] using hc1
    rw [if_pos hc1]
    refine ⟨?_, fun _ => rfl, by simp [full_sequence], by simp [full_sequence]⟩
    rintro (hf | heq)
    · simp [hf] at hc1'
    · exact absurd heq hc1'.2
  · rw [if_neg hc1]
    refine ⟨fun _ => rfl, ?_, rfl, by simp [full_sequence]⟩
    rintro ⟨he, hne⟩
    have hne' : ¬ crc8 (bus.presBlock.take 2) 0x131 0x00 = bus.presBlock[2]?.getD 0 := by
      simpa using hne
    exact absurd (by simp [he, bne_iff_ne, hne']) hc1

/-- Witness for C6 (amended): the full sequence on a checksum-disabled
driver, and the 4-operation prefix on a CRC-enabled driver whose
pressure-stage block fails the checksum. -/
theorem bus_sequence_witness :
    (read_raw ⟨0x6c, 1000, .modePN, false, 0, 2⟩ ⟨[0x04, 0x00], [0x27, 0xe6]⟩).1
      = full_sequence 0x6c 2
    ∧ (read_raw ⟨0x6c, 1000, .modePN, true, 0, 3⟩ ⟨[0, 0, 1], [0, 0, 0]⟩).1
      = (full_sequence 0x6c 3).take 4 :=
  ⟨(bus_sequence ⟨0x6c, 1000, .modePN, false, 0, 2⟩
      ⟨[0x04, 0x00], [0x27, 0xe6]⟩).1 (Or.inl rfl),
   (bus_sequence ⟨0x6c, 1000, .modePN, true, 0, 3⟩
      ⟨[0, 0, 1], [0, 0, 0]⟩).2.1 ⟨rfl, by decide⟩⟩

/-- C6 counterexample: the claim says every raw read issues the full
6-operation sequence; on a CRC-enabled driver whose pressure-stage block
fails the checksum (`crc8 [0, 0] = 0 ≠ 1`), the read stops after 4 bus
operations and the temperature select/read are never issued. -/
theorem bus_sequence_counterexample :
    init 0x6c (.int 1000) true 0 = .ok ⟨0x6c, 1000, .modePN, true, 0, 3⟩
    ∧ crc8 [0x00, 0x00] 0x131 0x00 ≠ 1
    ∧ (read_raw ⟨0x6c, 1000, .modePN, true, 0, 3⟩ ⟨[0, 0, 1], [0, 0, 0]⟩).1
        ≠ full_sequence 0x6c 3
    ∧ (read_raw ⟨0x6c, 1000, .modePN, true, 0, 3⟩ ⟨[0, 0, 1], [0, 0, 0]⟩).1
        = (full_sequence 0x6c 3).take 4 := by
  refine ⟨rfl, by decide, by decide, by decide⟩

/-- C8: for either transfer function and any full-scale in {100, 250, 1000},
shifting the raw input by an offset `N` changes the pressure by exactly
`-N * full_scale / 60000` (the bidirectional `-fs/2` term cancels);
and with checksum disabled, `read_raw` produces exactly the big-endian decode
minus the configured offset as an integer — so the count after offset
subtraction may be negative, and the conversion still applies to it. -/
theorem offset_linearity (f : PresFunc) (fs : ℚ) (N dec : ℚ)
    (_hfs : fs = 100 ∨ fs = 250 ∨ fs = 1000) :
    presFuncApply f fs (dec - N) - presFuncApply f fs dec = -N * fs / 60000
    ∧ ∀ (d : Driver) (bus : Bus), d.enCrc = false →
        (read_raw d bus).2
          = some ((int_from_bytes_be (bus.presBlock.take 2) : Int) - d.offset,
                  int_from_bytes_be (bus.tempBlock.take 2)) := by
  constructor
  · cases f <;>
      simp only [presFuncApply, _PRESSURE_MODE_P, _PRESSURE_MODE_PN] <;> ring
  · intro d bus hc
    simp [read_raw, hc]

/-- Witness for C8: full-scale 100, decode 10, offset 600 — the shifted raw
count 10 - 600 = -590 is negative and the pressure shift is
-600 * 100 / 60000 = -1; the pipeline-level conjunct is instantiated on a
concrete checksum-disabled driver whose offset exceeds the decoded count. -/
theorem offset_linearity_witness :
    presFuncApply .modePN 100 ((10 : ℚ) - 600) - presFuncApply .modePN 100 10
      = -600 * 100 / 60000
    ∧ (read_raw ⟨0x6c, 100, .modePN, false, 600, 2⟩ ⟨[0x00, 0x0a], [0x27, 0xe6]⟩).2
        = some (-590, 10214) := by
  have h := offset_linearity .modePN 100 600 10 (Or.inl rfl)
  refine ⟨h.1, ?_⟩
  have h2 := h.2 ⟨0x6c, 100, .modePN, false, 600, 2⟩ ⟨[0x00, 0x0a], [0x27, 0xe6]⟩ rfl
  rw [h2]
  norm_num [int_from_bytes_be]

/-- C9: whenever the calibrated read succeeds with pressure `pa` and
temperature `tc`, the convenience conversions return exactly
`pa / 6894.75729` (PSI), `pa / 100` (hPa), `tc` (°C) and `tc * 1.8 + 32`
(°F); each of them re-executes the full measurement sequence (its bus
transaction trace equals `read_raw`'s — nothing is cached across calls); and
the pinned conversions hold: `pa = 6894.75729 → PSI = 1`,
`pa = 100 → hPa = 1`, `tc = 0 → °F = 32`, `tc = 100 → °F = 212`. -/
theorem convenience_conversions (d : Driver) (bus : Bus) (pa tc : ℚ)
    (h : (read d bus).2 = some (pa, tc)) :
    (read_pa d bus).2 = .ok pa
    ∧ (read_psi d bus).2 = .ok (pa / (6894.75729 : ℚ))
    ∧ (read_hpa d bus).2 = .ok (pa / 100)
    ∧ (read_temp_c d bus).2 = .ok tc
    ∧ (read_temp_f d bus).2 = .ok (tc * (1.8 : ℚ) + 32)
    ∧ (read_pa d bus).1 = (read_raw d bus).1
    ∧ (read_psi d bus).1 = (read_raw d bus).1
    ∧ (read_hpa d bus).1 = (read_raw d bus).1
    ∧ (read_temp_c d bus).1 = (read_raw d bus).1
    ∧ (read_temp_f d bus).1 = (read_raw d bus).1
    ∧ (pa = (6894.75729 : ℚ) → (read_psi d bus).2 = .ok 1)
    ∧ (pa = 100 → (read_hpa d bus).2 = .ok 1)
    ∧ (tc = 0 → (read_temp_f d bus).2 = .ok 32)
    ∧ (tc = 100 → (read_temp_f d bus).2 = .ok 212) := by
  have hpa : (read_pa d bus).2 = .ok pa := by
    simp [read_pa, h]
  have hpsi : (read_psi d bus).2 = .ok (pa / (6894.75729 : ℚ)) := by
    simp [read_psi, hpa]
  have hhpa : (read_hpa d bus).2 = .ok (pa / 100) := by
    simp [read_hpa, hpa]
  have htc : (read_temp_c d bus).2 = .ok tc := by
    simp [read_temp_c, h]
  have htf : (read_temp_f d bus).2 = .ok (tc * (1.8 : ℚ) + 32) := by
    simp [read_temp_f, htc]
  refine ⟨hpa, hpsi, hhpa, htc, htf, rfl, rfl, rfl, rfl, rfl, ?_, ?_, ?_, ?_⟩
  · intro hp
    rw [hpsi, hp]
    norm_num
  · intro hp
    rw [hhpa, hp]
    norm_num
  · intro ht
    rw [htf, ht]
    norm_num
  · intro ht
    rw [htf, ht]
    norm_num

/-- Witness for C9: a checksum-disabled full-scale-1000 driver on bus blocks
decoding to raw pressure 37024 and raw temperature 10214, so the calibrated
read succeeds with exactly (100 Pa, 0 °C); the hPa and °F pins and the trace
re-execution then follow from the claim theorem. -/
theorem convenience_conversions_witness :
    (read ⟨0x6c, 1000, .modePN, false, 0, 2⟩ ⟨[0x90, 0xa0], [0x27, 0xe6]⟩).2
      = some (100, 0)
    ∧ (read_hpa ⟨0x6c, 1000, .modePN, false, 0, 2⟩ ⟨[0x90, 0xa0], [0x27, 0xe6]⟩).2
        = .ok 1
    ∧ (read_temp_f ⟨0x6c, 1000, .modePN, false, 0, 2⟩ ⟨[0x90, 0xa0], [0x27, 0xe6]⟩).2
        = .ok 32
    ∧ (read_psi ⟨0x6c, 1000, .modePN, false, 0, 2⟩ ⟨[0x90, 0xa0], [0x27, 0xe6]⟩).1
        = (read_raw ⟨0x6c, 1000, .modePN, false, 0, 2⟩ ⟨[0x90, 0xa0], [0x27, 0xe6]⟩).1 := by
  have hread : (read ⟨0x6c, 1000, .modePN, false, 0, 2⟩
      ⟨[0x90, 0xa0], [0x27, 0xe6]⟩).2 = some (100, 0) := by
    norm_num [read, read_raw, int_from_bytes_be, List.foldl_cons, List.foldl_nil,
      presFuncApply, _PRESSURE_MODE_PN, _temp_celsius]
  obtain ⟨h1, h2, h3, h4, h5, h6, h7, h8, h9, h10, h11, h12, h13, h14⟩ :=
    convenience_conversions _ _ 100 0 hread
  exact ⟨hread, h12 rfl, h13 rfl, h7⟩

end D6F_PH
